import Mathlib

/-!
Verification of the `invaders.producer` sync pipeline, a shallow embedding of
`src/util/cron-jobs/store-flashes.ts` (`StoreFlashesCron`).

External collaborators (upstream API, Postgres, RabbitMQ, the disk-backed retry
ledger, `Math.random()`, the wall clock) are modelled as explicit inputs to the
tick function; their observable effects (ledger appends, publish attempts,
written rows) are returned as explicit outputs.
-/

set_option linter.unusedVariables false

namespace InvadersProducer

/-- One flash record as it flows through the pipeline: an upstream `flash`
object or a stored database row.  `ipfs_cid` is `none` when the column is
NULL / the field is undefined. -/
structure Flash where
  flash_id : Int
  player : String
  ipfs_cid : Option String := none
  deriving Repr, DecidableEq

/-- The upstream API response of `invaderApi.getFlashes()`: two record subsets
and the `flash_count` fingerprint string. -/
structure FlashesResponse where
  with_paris : List Flash
  without_paris : List Flash
  flash_count : String
  deriving Repr, DecidableEq

/-- One entry of the disk-backed retry ledger: the batch handed to
`DiskPersistence.persistFailedFlashes` together with its reason string. -/
structure LedgerEntry where
  batch : List Flash
  reason : String
  deriving Repr, DecidableEq

/-- Test whether `sub` occurs as a contiguous run inside `l`. -/
def hasSubstrAux (sub : List Char) : List Char → Bool
  | [] => sub.isEmpty
  | c :: cs => sub.isPrefixOf (c :: cs) || hasSubstrAux sub cs

/-- Test whether the string `sub` occurs inside `s`. -/
def strHasSubstr (s sub : String) : Bool :=
  hasSubstrAux sub.data s.data

/-- Fuel-indexed worker for `chunks`: each step emits `l.take n` and recurses
on `l.drop n`.  The fuel only forces structural termination; with
`fuel ≥ l.length` and `n ≥ 1` it is never exhausted. -/
def chunksFuel (n : Nat) : Nat → List α → List (List α)
  | _, [] => []
  | 0, l => [l]
  | fuel + 1, x :: xs =>
    if n = 0 then [x :: xs]
    else (x :: xs).take n :: chunksFuel n fuel ((x :: xs).drop n)

/-- The JS slicing loop `for (let i = 0; i < l.length; i += n) l.slice(i, i+n)`.
With `n = 0` the JS loop would never terminate; the model returns the whole
list as a single chunk in that degenerate case (the source always uses
positive sizes, default 50 and 5). -/
def chunks (n : Nat) (l : List α) : List (List α) :=
  chunksFuel n l.length l

/-- The per-record body of the publish loop: `try { publish; publishCount++ }
catch { failedPublishes.push(flash) }`.  The accumulator collects
(successfully published, failed) in traversal order. -/
def pubStep (fails : Flash → Bool) (acc : List Flash × List Flash) (f : Flash) :
    List Flash × List Flash :=
  if fails f then (acc.1, acc.2 ++ [f]) else (acc.1 ++ [f], acc.2)

/-- The RabbitMQ publish stage (lines 243-278): the eligible records are cut
into batches of `bs` (`RABBITMQ_BATCH_SIZE`), each batch into concurrent
groups of `cl` (`RABBITMQ_CONCURRENCY`), and every record is attempted once,
its failure caught independently by the per-record try/catch.  (Within one
`Promise.allSettled` group the completion order of pushes is scheduler
dependent; the model fixes the traversal order, which no claim depends on.) -/
def publishRun (fails : Flash → Bool) (bs cl : Nat) (toPublish : List Flash) :
    List Flash × List Flash :=
  (chunks bs toPublish).foldl
    (fun acc batch =>
      (chunks cl batch).foldl (fun acc2 cb => cb.foldl (pubStep fails) acc2) acc)
    ([], [])

/-- Lowercasing used by the case-insensitive allow-list match
(`.toLowerCase()`), applied character by character (equivalent to
`String.toLower`, which maps `Char.toLower` over the characters). -/
def lowerStr (s : String) : String :=
  String.mk (s.data.map Char.toLower)

/-- The publish-eligibility test on a stored row (line 223):
`!flash.ipfs_cid || flash.ipfs_cid.trim() === ""` — NULL/undefined, empty, or
whitespace-only (a string trims to empty exactly when every character is
whitespace). -/
def blankCid : Option String → Bool
  | none => true
  | some s => s.data.all Char.isWhitespace

/-- Modelled from the spec: `PostgresFlashesDb.writeMany` is not under `src/`
(only its callers are).  Spec §4.4: an insert-or-ignore bulk write keyed on
`id`; on unique-key conflict the existing row is left untouched; the newly
written records are returned.  (Records already present in `store` are
ignored; the model does not distinguish duplicate ids inside one batch.) -/
def writeMany (store : List Flash) (records : List Flash) : List Flash :=
  records.filter (fun f => !(store.any (fun s => s.flash_id == f.flash_id)))

/-- Modelled from the spec: `PostgresFlashesDb.getByIds` is not under `src/`.
Spec §4.4/§6: an id-list lookup returning the stored rows whose key is among
`ids`. -/
def getByIds (store : List Flash) (ids : List Int) : List Flash :=
  store.filter (fun s => ids.contains s.flash_id)

/-- Modelled from the spec: `DiskPersistence.retryFailedFlashes` is not under
`src/`.  Spec §4.6: `drainForRetry` returns all currently stored entries
without removing them; the orchestrator receives the ledgered flashes as one
flat list. -/
def retryFailedFlashes (ledger : List LedgerEntry) : List Flash :=
  (ledger.map LedgerEntry.batch).flatten

/-- The collaborator state one `processFlashes` call observes. -/
structure ProcEnv where
  /-- Usernames returned by `new FlashcastrUsersDb().getMany({})`. -/
  users : List String
  /-- Rows currently in the flashes table. -/
  store : List Flash
  /-- When `some msg`, the dedup lookup `getFlashesByIds` (line 181) throws
  with that message — the representative unexpected failure after the
  candidate list has been built. -/
  lookupFailMsg : Option String
  /-- Whether `new PostgresFlashesDb().writeMany` succeeds. -/
  writeOk : Bool
  /-- Message of the `writeMany` error when it fails. -/
  writeErrMsg : String
  /-- Which `rabbit.publish(flash)` calls throw. -/
  publishFails : Flash → Bool
  /-- Value of `RABBITMQ_BATCH_SIZE` (default 50). -/
  batchSize : Nat
  /-- Value of `RABBITMQ_CONCURRENCY` (default 5). -/
  concurrencyLimit : Nat

/-- The observable outcome of one `processFlashes` call. -/
structure ProcResult where
  /-- The value of `flashesToProcess` from the dedup stage on
  (after line 172). -/
  candidates : List Flash
  /-- Rows `writtenDocuments` returned by `writeMany`. -/
  written : List Flash
  /-- List `flashesToPublish` handed to the RabbitMQ publisher. -/
  publishAttempted : List Flash
  /-- Records whose publish succeeded (`publishCount` counts these). -/
  published : List Flash
  /-- List `failedPublishes`. -/
  failedPublishes : List Flash
  /-- Batches appended to the retry ledger by this call, in order. -/
  ledgerAppends : List LedgerEntry
  /-- Whether `clearFailedFlashes()` was called. -/
  clearedLedger : Bool
  deriving Repr, DecidableEq

/-- Lines 134-172 of `processFlashes`: the candidate list as seen by every
stage from the dedup lookup on.
Lines 134-137 build `flashcastrUsernames` from the lowercased user names;
lines 143-169 select `flashesToProcess` (`flattened` itself in the retry
path, `without_paris` plus the allow-listed part of `with_paris`
otherwise); line 172, `flattened.length = 0`, then truncates the array
object in place — in the `originalFlashes === undefined` branch
`flashesToProcess` is the SAME array object as `flattened` (reference
assignment at line 147), so the truncation empties `flashesToProcess` as
well, while in the other branch `flashesToProcess` is a freshly spread
array and is unaffected. -/
def candidatesAfterTruncation (flattened : List Flash)
    (originalFlashes : Option FlashesResponse) (users : List String) :
    List Flash :=
  let flashcastrUsernames := users.map lowerStr
  let flashesToProcess :=
    match originalFlashes with
    | none => flattened
    | some orig =>
        orig.without_paris ++
          orig.with_paris.filter (fun f =>
            flashcastrUsernames.contains (lowerStr f.player))
  let flattened : List Flash := []
  match originalFlashes with
  | none => flattened
  | some _ => flashesToProcess

/-- Embedding of `StoreFlashesCron.processFlashes(flattened, context,
originalFlashes?)` (lines 127-329). -/
def processFlashes (flattened : List Flash) (context : String)
    (originalFlashes : Option FlashesResponse) (env : ProcEnv) : ProcResult :=
  -- lines 134-172: candidate selection and the in-place truncation of
  -- `flattened`
  let flashesToProcess :=
    candidatesAfterTruncation flattened originalFlashes env.users
  let flattened : List Flash := []
  match env.lookupFailMsg with
  | some msg =>
      -- lines 180-181 throw; control reaches the outer catch (lines 317-328),
      -- which persists the current `flattened` — already emptied at line 172.
      { candidates := flashesToProcess
        written := []
        publishAttempted := []
        published := []
        failedPublishes := []
        ledgerAppends :=
          [⟨flattened, "unexpected-error-" ++ context ++ ": " ++ msg⟩]
        clearedLedger := false }
  | none =>
    -- lines 179-184: dedup lookup
    let flashIds := flashesToProcess.map Flash.flash_id
    let existingFlashes := getByIds env.store flashIds
    if env.writeOk = false then
      -- lines 199-213: writeMany threw; ledger the whole candidate batch and
      -- return without touching RabbitMQ.
      { candidates := flashesToProcess
        written := []
        publishAttempted := []
        published := []
        failedPublishes := []
        ledgerAppends :=
          [⟨flashesToProcess,
            "database-write-failure-" ++ context ++ ": " ++ env.writeErrMsg⟩]
        clearedLedger := false }
    else
      -- lines 192-198
      let writtenDocuments := writeMany env.store flashesToProcess
      -- lines 216-229
      let newlyWrittenFlashes := flashesToProcess.filter (fun f =>
        writtenDocuments.any (fun d => d.flash_id == f.flash_id))
      let existingFlashesWithoutIpfs :=
        existingFlashes.filter (fun f => blankCid f.ipfs_cid)
      let flashesToPublish := newlyWrittenFlashes ++ existingFlashesWithoutIpfs
      if flashesToPublish = [] then
        -- lines 231-236: early return before the publisher and before the
        -- retry-clear check.
        { candidates := flashesToProcess
          written := writtenDocuments
          publishAttempted := []
          published := []
          failedPublishes := []
          ledgerAppends := []
          clearedLedger := false }
      else
        -- lines 238-286
        let pr := publishRun env.publishFails env.batchSize
          env.concurrencyLimit flashesToPublish
        { candidates := flashesToProcess
          written := writtenDocuments
          publishAttempted := flashesToPublish
          published := pr.1
          failedPublishes := pr.2
          ledgerAppends :=
            if pr.2 = [] then []
            else [⟨pr.2, "rabbitmq-publish-failure-" ++ context⟩]
          -- lines 314-316
          clearedLedger :=
            context == "retry-failed-flashes" && decide (0 < pr.1.length) }

/-- The cross-tick scheduler state: the two `private static` fields of
`StoreFlashesCron` (lines 19-20).  Being `static`, one copy is shared by
every instance of the class. -/
structure SchedState where
  lastFlashCount : Option String
  consecutiveNoChanges : Nat
  deriving Repr, DecidableEq

/-- The field initializers: `lastFlashCount = null`,
`consecutiveNoChanges = 0`. -/
def initialSchedState : SchedState := ⟨none, 0⟩

/-- How one `executeTask` invocation ends. -/
inductive TickOutcome
  /-- Early return at lines 35-40. -/
  | skippedOffPeak
  /-- Outcome when `getFlashes()` threw (rethrown at line 65). -/
  | fetchError
  /-- The empty-subset rejection threw at line 74. -/
  | invalidResponse
  /-- Early return at lines 95-99. -/
  | skippedBackoff
  /-- Early return at lines 102-105. -/
  | skippedUnchanged
  /-- The tick reached `processFlashes` for the fetched snapshot. -/
  | processed
  deriving Repr, DecidableEq

/-- The collaborator state one tick observes. -/
structure TickEnv where
  /-- Result of `isPeakFlashTime()` — the wall clock. -/
  isPeak : Bool
  /-- The `Math.random()` draw of the off-peak gate (line 34), in [0,1). -/
  offPeakRand : Rat
  /-- Current contents of the disk ledger. -/
  ledger : List LedgerEntry
  /-- Collaborator state seen by the replay `processFlashes` call. -/
  retryEnv : ProcEnv
  /-- Result of `invaderApi.getFlashes()`; `none` models a throw. -/
  fetch : Option FlashesResponse
  /-- The `Math.random()` draw of the backoff gate (line 93), in [0,1). -/
  backoffRand : Rat
  /-- Collaborator state seen by the new-flashes `processFlashes` call. -/
  procEnv : ProcEnv

/-- The observable outcome of one `executeTask` invocation. -/
structure TickResult where
  /-- The retry replay call, when one was made. -/
  retried : Option ProcResult
  outcome : TickOutcome
  /-- The new-flashes processing call, when one was made. -/
  proc : Option ProcResult
  /-- The scheduler state after the tick. -/
  state' : SchedState
  deriving Repr, DecidableEq

/-- Embedding of `StoreFlashesCron.executeTask()` (lines 30-125), as a
function of the shared scheduler state and the tick's collaborator inputs. -/
def executeTask (st : SchedState) (env : TickEnv) : TickResult :=
  -- lines 32-41: off-peak probabilistic skip, before anything else
  -- (`Math.random() < 0.5`, and 0.5 = 1/2)
  if env.isPeak = false ∧ env.offPeakRand < mkRat 1 2 then
    ⟨none, TickOutcome.skippedOffPeak, none, st⟩
  else
    -- lines 46-57: drain the ledger and replay it when non-empty
    let previouslyFailedFlashes := retryFailedFlashes env.ledger
    let retried :=
      if 0 < previouslyFailedFlashes.length then
        some (processFlashes previouslyFailedFlashes "retry-failed-flashes"
          none env.retryEnv)
      else none
    -- lines 59-66
    match env.fetch with
    | none => ⟨retried, TickOutcome.fetchError, none, st⟩
    | some flashes =>
      -- lines 68-75
      if flashes.with_paris = [] ∨ flashes.without_paris = [] then
        ⟨retried, TickOutcome.invalidResponse, none, st⟩
      -- lines 82-106
      else if st.lastFlashCount = some flashes.flash_count then
        let st' : SchedState :=
          ⟨st.lastFlashCount, st.consecutiveNoChanges + 1⟩
        let backoffThreshold : Nat := min st'.consecutiveNoChanges 10
        -- `Math.random() < backoffThreshold * 0.1`, and t * 0.1 = t/10
        if env.backoffRand < mkRat backoffThreshold 10 then
          ⟨retried, TickOutcome.skippedBackoff, none, st'⟩
        else
          -- even without a backoff skip, an unchanged count always returns
          -- before processing (lines 102-105)
          ⟨retried, TickOutcome.skippedUnchanged, none, st'⟩
      else
        -- lines 108-124: the counters are reset/written here, BEFORE
        -- processFlashes runs
        let st' : SchedState := ⟨some flashes.flash_count, 0⟩
        let flattened := flashes.with_paris ++ flashes.without_paris
        ⟨retried, TickOutcome.processed,
          some (processFlashes flattened "new-flashes" (some flashes)
            env.procEnv),
          st'⟩

/-- The `StoreFlashesCron` instance data: the constructor only forwards a name
and a schedule to the `CronTask` base; the scheduler counters are NOT instance
fields (they are `static`, see `SchedState`). -/
structure StoreFlashesCron where
  name : String
  schedule : String
  deriving Repr, DecidableEq

/-- Method `task()` (lines 26-28) delegates to the static `executeTask`, so the
instance value contributes nothing: every instance reads and writes the one
shared `SchedState`. -/
def StoreFlashesCron.task (self : StoreFlashesCron) (st : SchedState)
    (env : TickEnv) : TickResult :=
  executeTask st env

/-- Run a sequence of ticks, possibly issued by different instances, against
the single shared static scheduler state, threading it left to right. -/
def runShared (st : SchedState) :
    List (StoreFlashesCron × TickEnv) → SchedState × List TickResult
  | [] => (st, [])
  | (c, e) :: rest =>
      let r := c.task st e
      let next := runShared r.state' rest
      (next.1, r :: next.2)

/-- Modelled from the spec: the replay contract of §4.6 — a ledgered batch is
fed back through the same filter→store→publish pipeline as fresh candidates.
A replay has no feed subsets, so the whole batch is the candidate list (the
source comment at line 146: for retry scenarios, process all); the stages
below mirror the dedup, write and publish stages of `processFlashes`, without
the in-place truncation of the input array. -/
def replaySpec (batch : List Flash) (env : ProcEnv) : ProcResult :=
  let existingFlashes := getByIds env.store (batch.map Flash.flash_id)
  if env.writeOk = false then
    { candidates := batch
      written := []
      publishAttempted := []
      published := []
      failedPublishes := []
      ledgerAppends :=
        [⟨batch,
          "database-write-failure-retry-failed-flashes: " ++ env.writeErrMsg⟩]
      clearedLedger := false }
  else
    let writtenDocuments := writeMany env.store batch
    let newlyWrittenFlashes := batch.filter (fun f =>
      writtenDocuments.any (fun d => d.flash_id == f.flash_id))
    let existingFlashesWithoutIpfs :=
      existingFlashes.filter (fun f => blankCid f.ipfs_cid)
    let flashesToPublish := newlyWrittenFlashes ++ existingFlashesWithoutIpfs
    if flashesToPublish = [] then
      { candidates := batch
        written := writtenDocuments
        publishAttempted := []
        published := []
        failedPublishes := []
        ledgerAppends := []
        clearedLedger := false }
    else
      let pr := publishRun env.publishFails env.batchSize
        env.concurrencyLimit flashesToPublish
      { candidates := batch
        written := writtenDocuments
        publishAttempted := flashesToPublish
        published := pr.1
        failedPublishes := pr.2
        ledgerAppends :=
          if pr.2 = [] then []
          else [⟨pr.2, "rabbitmq-publish-failure-retry-failed-flashes"⟩]
        clearedLedger := decide (0 < pr.1.length) }

/-! Concrete records and collaborator states used in witnesses and
counterexamples. -/

def fAlice : Flash := ⟨1, "alice", none⟩
def fBob : Flash := ⟨2, "bob", none⟩
def fCarol : Flash := ⟨3, "carol", none⟩
def fDave : Flash := ⟨4, "dave", none⟩
def fEve : Flash := ⟨5, "eve", none⟩

/-- Record `fBob` as a stored row whose `ipfs_cid` is the empty string. -/
def storedBob : Flash := ⟨2, "bob", some ""⟩

/-- A fully healthy collaborator state: one allow-listed user, empty store,
all writes and publishes succeed, default batch sizes. -/
def benignProcEnv : ProcEnv :=
  { users := ["alice"]
    store := []
    lookupFailMsg := none
    writeOk := true
    writeErrMsg := ""
    publishFails := fun _ => false
    batchSize := 50
    concurrencyLimit := 5 }

/-- A fetch snapshot: `fAlice` in `with_paris`, `fBob` in `without_paris`,
fingerprint "100". -/
def resp100 : FlashesResponse := ⟨[fAlice], [fBob], "100"⟩

/-- A snapshot of three records, all in `without_paris`. -/
def respThree : FlashesResponse := ⟨[], [fAlice, fBob, fCarol], "3"⟩

/-- A snapshot of five records, all in `without_paris`. -/
def respFive : FlashesResponse := ⟨[], [fAlice, fBob, fCarol, fDave, fEve], "5"⟩

/-- A snapshot whose `with_paris` subset is empty. -/
def respEmptySubset : FlashesResponse := ⟨[], [fBob], "9"⟩

/-- A snapshot with `fAlice` (allow-listed) in `with_paris` and `fBob` in
`without_paris`. -/
def respMixed : FlashesResponse := ⟨[fAlice], [fBob], "2"⟩

/-- An off-peak night tick with a low random draw and a non-empty ledger. -/
def offPeakTickEnv : TickEnv :=
  { isPeak := false
    offPeakRand := mkRat 0 1
    ledger := [⟨[fAlice], "rabbitmq-publish-failure-new-flashes"⟩]
    retryEnv := benignProcEnv
    fetch := none
    backoffRand := mkRat 0 1
    procEnv := benignProcEnv }

/-- A peak-hours tick with a non-empty ledger whose fetch then throws. -/
def peakLedgerTickEnv : TickEnv :=
  { isPeak := true
    offPeakRand := mkRat 0 1
    ledger := [⟨[fAlice], "rabbitmq-publish-failure-new-flashes"⟩]
    retryEnv := benignProcEnv
    fetch := none
    backoffRand := mkRat 0 1
    procEnv := benignProcEnv }

/-- A peak-hours tick that fetches `resp100` with a high backoff draw. -/
def unchangedTickEnv : TickEnv :=
  { isPeak := true
    offPeakRand := mkRat 0 1
    ledger := []
    retryEnv := benignProcEnv
    fetch := some resp100
    backoffRand := mkRat 9 10
    procEnv := benignProcEnv }

/-- Scheduler state that has already seen fingerprint "100". -/
def seen100State : SchedState := ⟨some "100", 0⟩

/-- A healthy tick fetching `resp100` (backoff draw 1/2 never skips). -/
def freshTickEnv : TickEnv :=
  { isPeak := true
    offPeakRand := mkRat 0 1
    ledger := []
    retryEnv := benignProcEnv
    fetch := some resp100
    backoffRand := mkRat 1 2
    procEnv := benignProcEnv }

/-- A tick whose database write fails during processing. -/
def dbDownTickEnv : TickEnv :=
  { isPeak := true
    offPeakRand := mkRat 0 1
    ledger := []
    retryEnv := benignProcEnv
    fetch := some resp100
    backoffRand := mkRat 0 1
    procEnv := { benignProcEnv with writeOk := false, writeErrMsg := "db down" } }

/-- A tick fetching a response with an empty subset. -/
def emptySubsetTickEnv : TickEnv :=
  { isPeak := true
    offPeakRand := mkRat 0 1
    ledger := []
    retryEnv := benignProcEnv
    fetch := some respEmptySubset
    backoffRand := mkRat 0 1
    procEnv := benignProcEnv }

/-- Collaborator state whose bulk write fails. -/
def failingWriteProcEnv : ProcEnv :=
  { benignProcEnv with writeOk := false, writeErrMsg := "connection reset" }

/-- Collaborator state with `storedBob` already stored with a blank cid. -/
def knownBlankProcEnv : ProcEnv :=
  { benignProcEnv with store := [storedBob] }

/-- Collaborator state where publishing flash 3 throws and the rest succeed. -/
def failThirdProcEnv : ProcEnv :=
  { benignProcEnv with publishFails := fun f => f.flash_id == 3 }

/-- Collaborator state whose dedup lookup throws. -/
def lookupFailProcEnv : ProcEnv :=
  { benignProcEnv with lookupFailMsg := some "TypeError: ids is not iterable" }

/-- Two distinct orchestrator instances on different schedules. -/
def cronA : StoreFlashesCron := ⟨"store-flashes", "*/5 * * * *"⟩

def cronB : StoreFlashesCron := ⟨"store-flashes", "*/7 * * * *"⟩

/-! Helper lemmas about the batching and publishing combinators. -/

theorem chunksFuel_flatten (n : Nat) :
    ∀ (fuel : Nat) (l : List α), l.length ≤ fuel →
      (chunksFuel n fuel l).flatten = l := by
  intro fuel
  induction fuel with
  | zero =>
      intro l hl
      have : l = [] := List.length_eq_zero.mp (Nat.le_zero.mp hl)
      subst this
      simp [chunksFuel]
  | succ k ih =>
      intro l hl
      cases l with
      | nil => simp [chunksFuel]
      | cons x xs =>
          rw [chunksFuel]
          by_cases hn : n = 0
          · simp [hn]
          · rw [if_neg hn, List.flatten_cons,
              ih ((x :: xs).drop n) (by
                simp only [List.length_drop, List.length_cons] at hl ⊢
                omega),
              List.take_append_drop]

/-- The slices produced by the JS batching loop reassemble to the input. -/
theorem chunks_flatten (n : Nat) (l : List α) : (chunks n l).flatten = l :=
  chunksFuel_flatten n l.length l le_rfl

theorem foldl_pubStep (fails : Flash → Bool) (l : List Flash) :
    ∀ acc : List Flash × List Flash,
      l.foldl (pubStep fails) acc =
        (acc.1 ++ l.filter (fun f => !(fails f)), acc.2 ++ l.filter fails) := by
  induction l with
  | nil => intro acc; simp
  | cons x xs ih =>
      intro acc
      rw [List.foldl_cons, ih]
      by_cases h : fails x <;>
        simp [pubStep, h, List.filter_cons, List.append_assoc]

theorem foldl_pubGroups (fails : Flash → Bool) (L : List (List Flash)) :
    ∀ acc : List Flash × List Flash,
      L.foldl (fun acc2 cb => cb.foldl (pubStep fails) acc2) acc =
        (acc.1 ++ L.flatten.filter (fun f => !(fails f)),
         acc.2 ++ L.flatten.filter fails) := by
  induction L with
  | nil => intro acc; simp
  | cons b bs ih =>
      intro acc
      rw [List.foldl_cons, foldl_pubStep, ih]
      simp [List.filter_append, List.append_assoc]

/-- The nested batch/concurrency loops attempt every eligible record exactly
once: the successes are the records whose publish does not throw, the
`failedPublishes` list is exactly the records whose publish throws. -/
theorem publishRun_eq (fails : Flash → Bool) (bs cl : Nat) (l : List Flash) :
    publishRun fails bs cl l =
      (l.filter (fun f => !(fails f)), l.filter fails) := by
  unfold publishRun
  have step : ∀ (L : List (List Flash)) (acc : List Flash × List Flash),
      L.foldl (fun acc batch => (chunks cl batch).foldl
        (fun acc2 cb => cb.foldl (pubStep fails) acc2) acc) acc =
      (acc.1 ++ L.flatten.filter (fun f => !(fails f)),
       acc.2 ++ L.flatten.filter fails) := by
    intro L
    induction L with
    | nil => intro acc; simp
    | cons b bs2 ih =>
        intro acc
        rw [List.foldl_cons, foldl_pubGroups, chunks_flatten, ih]
        simp [List.filter_append, List.append_assoc]
  rw [step, chunks_flatten]
  simp

theorem isPrefixOf_append_self (l t : List Char) :
    l.isPrefixOf (l ++ t) = true := by
  induction l with
  | nil => simp [List.isPrefixOf]
  | cons a as ih => simp [List.isPrefixOf, ih]

theorem hasSubstrAux_self_append (sub rest : List Char) :
    hasSubstrAux sub (sub ++ rest) = true := by
  cases sub with
  | nil =>
      cases rest with
      | nil => rfl
      | cons c cs => simp [hasSubstrAux]
  | cons d ds =>
      show hasSubstrAux (d :: ds) (d :: (ds ++ rest)) = true
      simp only [hasSubstrAux, Bool.or_eq_true]
      exact Or.inl (isPrefixOf_append_self (d :: ds) rest)

theorem hasSubstrAux_mid (sub pre rest : List Char) :
    hasSubstrAux sub (pre ++ (sub ++ rest)) = true := by
  induction pre with
  | nil => simpa using hasSubstrAux_self_append sub rest
  | cons c cs ih => simp [hasSubstrAux, ih]

/-- Substring containment via an explicit decomposition of the data. -/
theorem strHasSubstr_of_data (s sub : String) (pre rest : List Char)
    (h : s.data = pre ++ (sub.data ++ rest)) : strHasSubstr s sub = true := by
  unfold strHasSubstr
  rw [h]
  exact hasSubstrAux_mid sub.data pre rest

/-- The backoff threshold of the source, `backoffThreshold * 0.1`, written as
the rational `backoffThreshold/10` used by the embedding. -/
theorem mkRat_div_ten (n : Nat) : mkRat n 10 = (n : Rat) * (1/10 : Rat) := by
  rw [Rat.mkRat_eq_div]
  push_cast
  ring

/-- Matching candidates against the rows just written by the insert-or-ignore
bulk write selects exactly the candidates whose id was not already stored. -/
theorem newlyWritten_eq (store P : List Flash) :
    P.filter (fun f =>
      (writeMany store P).any (fun d => d.flash_id == f.flash_id)) =
    P.filter (fun f =>
      !(store.any (fun s => s.flash_id == f.flash_id))) := by
  apply List.filter_congr
  intro f hf
  dsimp only
  by_cases h : store.any (fun s => s.flash_id == f.flash_id) = true
  · rw [h, Bool.not_true, Bool.eq_false_iff]
    intro hany
    obtain ⟨d, hd, hdid⟩ := List.any_eq_true.mp hany
    obtain ⟨hdP, hdnew⟩ := List.mem_filter.mp hd
    rw [beq_iff_eq] at hdid
    rw [hdid, h] at hdnew
    simp at hdnew
  · rw [Bool.not_eq_true] at h
    rw [h, Bool.not_false]
    apply List.any_eq_true.mpr
    refine ⟨f, List.mem_filter.mpr ⟨hf, ?_⟩, ?_⟩
    · rw [h, Bool.not_false]
    · exact beq_self_eq_true f.flash_id

/-! Claim theorems. -/

/-- C1 counterexample: an off-peak tick whose random draw is below 0.5 makes
no replay call at all even though the retry ledger is non-empty — the
off-peak skip decision precedes and suppresses the ledger drain, so failed
work does NOT get a retry attempt on every tick. -/
theorem c1_counterexample :
    offPeakTickEnv.ledger ≠ [] ∧
    (executeTask initialSchedState offPeakTickEnv).retried = none ∧
    (executeTask initialSchedState offPeakTickEnv).outcome =
      TickOutcome.skippedOffPeak := by
  decide

/-- C1 (amended): on every tick that passes the off-peak gate, the retry
ledger is drained and its flashes replayed before the fetch and independently
of the fetch, fingerprint-compare and backoff outcomes of that tick. -/
theorem c1_retry_precedes_fetch_decisions (st : SchedState) (env : TickEnv)
    (hgate : ¬ (env.isPeak = false ∧ env.offPeakRand < mkRat 1 2))
    (hnz : retryFailedFlashes env.ledger ≠ []) :
    (executeTask st env).retried =
      some (processFlashes (retryFailedFlashes env.ledger)
        "retry-failed-flashes" none env.retryEnv) := by
  have hlen : 0 < (retryFailedFlashes env.ledger).length :=
    List.length_pos.mpr hnz
  unfold executeTask
  rw [if_neg hgate]
  cases hf : env.fetch with
  | none => simp [hlen]
  | some flashes =>
      by_cases hA : flashes.with_paris = [] ∨ flashes.without_paris = []
      · simp [hlen, hA]
      · by_cases hc : st.lastFlashCount = some flashes.flash_count
        · by_cases hb : env.backoffRand <
              mkRat (min (st.consecutiveNoChanges + 1) 10) 10
          · simp [hlen, hA, hc, hb]
          · simp [hlen, hA, hc, hb]
        · simp [hlen, hA, hc]

/-- C1 witness: a peak-hours tick with a one-batch ledger replays it even
though the subsequent fetch throws. -/
theorem c1_retry_precedes_fetch_decisions_witness :
    (executeTask initialSchedState peakLedgerTickEnv).retried =
      some (processFlashes (retryFailedFlashes peakLedgerTickEnv.ledger)
        "retry-failed-flashes" none peakLedgerTickEnv.retryEnv) :=
  c1_retry_precedes_fetch_decisions initialSchedState peakLedgerTickEnv
    (by decide) (by decide)

/-- C2: replay does NOT behave like first-pass processing of the same batch.
In the retry path `flashesToProcess` aliases `flattened` (line 147), whose
in-place truncation (line 172) empties the batch before any stage runs:
replaying a one-record ledger against an empty store with every collaborator
healthy writes nothing, hands nothing to the publisher and leaves the ledger
uncleared, while the spec's replay pipeline on the same batch writes and
publishes the record. -/
theorem c2_replay_divergence :
    (processFlashes [fAlice] "retry-failed-flashes" none
      benignProcEnv).candidates = [] ∧
    (processFlashes [fAlice] "retry-failed-flashes" none
      benignProcEnv).written = [] ∧
    (processFlashes [fAlice] "retry-failed-flashes" none
      benignProcEnv).publishAttempted = [] ∧
    (processFlashes [fAlice] "retry-failed-flashes" none
      benignProcEnv).clearedLedger = false ∧
    (replaySpec [fAlice] benignProcEnv).written = [fAlice] ∧
    (replaySpec [fAlice] benignProcEnv).publishAttempted = [fAlice] ∧
    (replaySpec [fAlice] benignProcEnv).published = [fAlice] ∧
    (replaySpec [fAlice] benignProcEnv).clearedLedger = true := by
  decide

/-- C10: when the dedup lookup throws after the candidate list has been
built, the unexpected-error ledger entry holds the EMPTY batch — the
flattened input array was truncated (line 172) before the failure point, so
the in-flight records are not preserved for retry. -/
theorem c10_unexpected_error_loses_batch (flattened : List Flash)
    (context : String) (orig : Option FlashesResponse) (env : ProcEnv)
    (msg : String) (hfail : env.lookupFailMsg = some msg) :
    (processFlashes flattened context orig env).ledgerAppends =
      [⟨[], "unexpected-error-" ++ context ++ ": " ++ msg⟩] ∧
    (processFlashes flattened context orig env).written = [] ∧
    (processFlashes flattened context orig env).publishAttempted = [] := by
  unfold processFlashes
  rw [hfail]
  cases orig <;> simp

/-- C10 witness: two in-flight records are dropped when the lookup throws. -/
theorem c10_unexpected_error_loses_batch_witness :
    (processFlashes [fAlice, fBob] "new-flashes" (some respMixed)
      lookupFailProcEnv).ledgerAppends =
      [⟨[], "unexpected-error-" ++ "new-flashes" ++ ": " ++
        "TypeError: ids is not iterable"⟩] ∧
    (processFlashes [fAlice, fBob] "new-flashes" (some respMixed)
      lookupFailProcEnv).written = [] ∧
    (processFlashes [fAlice, fBob] "new-flashes" (some respMixed)
      lookupFailProcEnv).publishAttempted = [] :=
  c10_unexpected_error_loses_batch [fAlice, fBob] "new-flashes"
    (some respMixed) lookupFailProcEnv "TypeError: ids is not iterable" rfl

/-- C3 counterexample: the fingerprint is unchanged ("100" twice) and the
backoff draw 9/10 is at or above the skip threshold min(1,10)*0.1, so by the
claim the tick should proceed to Processing — but the code still skips it
(`skippedUnchanged`) and never processes. -/
theorem c3_counterexample :
    seen100State.lastFlashCount = some resp100.flash_count ∧
    unchangedTickEnv.fetch = some resp100 ∧
    ¬ (unchangedTickEnv.backoffRand <
        mkRat (min (seen100State.consecutiveNoChanges + 1) 10) 10) ∧
    (executeTask seen100State unchangedTickEnv).outcome =
      TickOutcome.skippedUnchanged ∧
    (executeTask seen100State unchangedTickEnv).proc = none := by
  decide

/-- C3 (amended): on an unchanged-fingerprint tick the counter is
incremented and the tick is skipped with probability
min(consecutiveUnchangedTicks, 10) * 0.1 as a backoff skip — but with the
complementary probability it is STILL skipped (as an unchanged skip), never
proceeding to Processing; on a changed-fingerprint tick the counter is reset
to zero unconditionally before processing.  Randomness is the explicit
`backoffRand` input. -/
theorem c3_backoff_behavior (st : SchedState) (env : TickEnv)
    (flashes : FlashesResponse)
    (hgate : ¬ (env.isPeak = false ∧ env.offPeakRand < mkRat 1 2))
    (hfetch : env.fetch = some flashes)
    (hA : ¬ (flashes.with_paris = [] ∨ flashes.without_paris = [])) :
    (st.lastFlashCount = some flashes.flash_count →
      (executeTask st env).state'.consecutiveNoChanges =
        st.consecutiveNoChanges + 1 ∧
      (env.backoffRand <
          ((min (st.consecutiveNoChanges + 1) 10 : Nat) : Rat) *
            (1/10 : Rat) →
        (executeTask st env).outcome = TickOutcome.skippedBackoff) ∧
      (¬ env.backoffRand <
          ((min (st.consecutiveNoChanges + 1) 10 : Nat) : Rat) *
            (1/10 : Rat) →
        (executeTask st env).outcome = TickOutcome.skippedUnchanged) ∧
      (executeTask st env).proc = none) ∧
    (¬ st.lastFlashCount = some flashes.flash_count →
      (executeTask st env).state'.consecutiveNoChanges = 0 ∧
      (executeTask st env).state'.lastFlashCount = some flashes.flash_count ∧
      (executeTask st env).outcome = TickOutcome.processed) := by
  unfold executeTask
  rw [if_neg hgate, hfetch]
  dsimp only
  rw [if_neg hA]
  constructor
  · intro hc
    rw [if_pos hc]
    by_cases hb : env.backoffRand <
        mkRat ((min (st.consecutiveNoChanges + 1) 10 : Nat) : Int) 10
    · rw [if_pos hb]
      refine ⟨rfl, fun _ => rfl, ?_, rfl⟩
      intro hb'
      rw [← mkRat_div_ten] at hb'
      exact absurd hb hb'
    · rw [if_neg hb]
      refine ⟨rfl, ?_, fun _ => rfl, rfl⟩
      intro hb'
      rw [← mkRat_div_ten] at hb'
      exact absurd hb' hb
  · intro hc
    rw [if_neg hc]
    exact ⟨rfl, rfl, rfl⟩

/-- C3 witness: second sight of fingerprint "100" with draw 9/10 increments
the counter to 1 and ends in an unchanged skip, not Processing. -/
theorem c3_backoff_behavior_witness :
    (executeTask seen100State unchangedTickEnv).state'.consecutiveNoChanges =
      seen100State.consecutiveNoChanges + 1 ∧
    (executeTask seen100State unchangedTickEnv).outcome =
      TickOutcome.skippedUnchanged ∧
    (executeTask seen100State unchangedTickEnv).proc = none := by
  have h := (c3_backoff_behavior seen100State unchangedTickEnv resp100
    (by decide) rfl (by decide)).1 (by decide)
  refine ⟨h.1, h.2.2.1 ?_, h.2.2.2⟩
  rw [← mkRat_div_ten]
  decide

/-- C7 counterexample: a tick whose processing branch fails at the store
stage (its `processFlashes` call ledgers a database-write-failure batch)
nevertheless leaves the scheduler state CHANGED: `lastFlashCount` and the
backoff counter were written before the failure occurred. -/
theorem c7_counterexample :
    ((executeTask initialSchedState dbDownTickEnv).proc.map
      ProcResult.ledgerAppends) =
      some [⟨[fBob, fAlice], "database-write-failure-new-flashes: db down"⟩] ∧
    (executeTask initialSchedState dbDownTickEnv).state' ≠
      initialSchedState ∧
    (executeTask initialSchedState dbDownTickEnv).state' =
      ⟨some "100", 0⟩ := by
  decide

/-- C7 (amended): the scheduler state is written BEFORE the processing branch
runs — on every processing tick the post-state is ⟨fetched fingerprint, 0⟩
whatever happens inside `processFlashes` (whose stage failures are caught
internally), so a processing-stage failure leaves the already-updated
cross-tick state in place rather than the pre-tick state. -/
theorem c7_state_written_before_processing (st : SchedState) (env : TickEnv)
    (flashes : FlashesResponse)
    (hgate : ¬ (env.isPeak = false ∧ env.offPeakRand < mkRat 1 2))
    (hfetch : env.fetch = some flashes)
    (hA : ¬ (flashes.with_paris = [] ∨ flashes.without_paris = []))
    (hchanged : ¬ st.lastFlashCount = some flashes.flash_count) :
    (executeTask st env).outcome = TickOutcome.processed ∧
    (executeTask st env).proc = some (processFlashes
      (flashes.with_paris ++ flashes.without_paris) "new-flashes"
      (some flashes) env.procEnv) ∧
    (executeTask st env).state' = ⟨some flashes.flash_count, 0⟩ := by
  unfold executeTask
  rw [if_neg hgate, hfetch]
  exact ⟨by simp [hA, hchanged], by simp [hA, hchanged],
    by simp [hA, hchanged]⟩

/-- C7 witness: with the database down, the tick still processes and commits
the new fingerprint with a reset counter. -/
theorem c7_state_written_before_processing_witness :
    (executeTask initialSchedState dbDownTickEnv).outcome =
      TickOutcome.processed ∧
    (executeTask initialSchedState dbDownTickEnv).proc =
      some (processFlashes
        (resp100.with_paris ++ resp100.without_paris) "new-flashes"
        (some resp100) dbDownTickEnv.procEnv) ∧
    (executeTask initialSchedState dbDownTickEnv).state' =
      ⟨some resp100.flash_count, 0⟩ :=
  c7_state_written_before_processing initialSchedState dbDownTickEnv resp100
    (by decide) rfl (by decide) (by decide)

/-- C9: a fetched response with an empty subset is rejected: the tick aborts
with the invalid-response error, no processing call is made for that fetch
(no filtering, store write, publish or ledger entry arises from it) and the
scheduler state is untouched. -/
theorem c9_invalid_response_aborts (st : SchedState) (env : TickEnv)
    (flashes : FlashesResponse)
    (hgate : ¬ (env.isPeak = false ∧ env.offPeakRand < mkRat 1 2))
    (hfetch : env.fetch = some flashes)
    (hempty : flashes.with_paris = [] ∨ flashes.without_paris = []) :
    (executeTask st env).outcome = TickOutcome.invalidResponse ∧
    (executeTask st env).proc = none ∧
    (executeTask st env).state' = st := by
  unfold executeTask
  rw [if_neg hgate, hfetch]
  exact ⟨by simp [hempty], by simp [hempty], by simp [hempty]⟩

/-- C9 witness: a response with an empty `with_paris` subset aborts the tick
without processing or state change. -/
theorem c9_invalid_response_aborts_witness :
    (executeTask initialSchedState emptySubsetTickEnv).outcome =
      TickOutcome.invalidResponse ∧
    (executeTask initialSchedState emptySubsetTickEnv).proc = none ∧
    (executeTask initialSchedState emptySubsetTickEnv).state' =
      initialSchedState :=
  c9_invalid_response_aborts initialSchedState emptySubsetTickEnv
    respEmptySubset (by decide) rfl (by decide)

/-- C4 counterexample: a failing bulk write for a three-record batch ledgers
the batch under reason "database-write-failure-new-flashes: connection
reset", which does NOT contain the substring "store-write-failure" the claim
requires. -/
theorem c4_counterexample :
    (processFlashes [fAlice, fBob, fCarol] "new-flashes" (some respThree)
      failingWriteProcEnv).ledgerAppends =
      [⟨[fAlice, fBob, fCarol],
        "database-write-failure-new-flashes: connection reset"⟩] ∧
    strHasSubstr "database-write-failure-new-flashes: connection reset"
      "store-write-failure" = false ∧
    (processFlashes [fAlice, fBob, fCarol] "new-flashes" (some respThree)
      failingWriteProcEnv).publishAttempted = [] := by
  decide

/-- C4 (amended): when the bulk write fails, exactly one entry holding the
entire candidate batch is ledgered, with a reason containing
"database-write-failure" (not "store-write-failure"), and the publisher is
never invoked for that batch. -/
theorem c4_store_write_failure (flattened : List Flash) (context : String)
    (orig : Option FlashesResponse) (env : ProcEnv)
    (hlk : env.lookupFailMsg = none) (hw : env.writeOk = false) :
    (processFlashes flattened context orig env).ledgerAppends =
      [⟨(processFlashes flattened context orig env).candidates,
        "database-write-failure-" ++ context ++ ": " ++ env.writeErrMsg⟩] ∧
    strHasSubstr ("database-write-failure-" ++ context ++ ": " ++
      env.writeErrMsg) "database-write-failure" = true ∧
    (processFlashes flattened context orig env).publishAttempted = [] ∧
    (processFlashes flattened context orig env).published = [] := by
  have hsub : strHasSubstr ("database-write-failure-" ++ context ++ ": " ++
      env.writeErrMsg) "database-write-failure" = true := by
    apply strHasSubstr_of_data _ _ []
      ("-".data ++ (context.data ++ (": ".data ++ env.writeErrMsg.data)))
    have hlit : "database-write-failure-".data =
        "database-write-failure".data ++ "-".data := by decide
    simp [String.data_append, hlit, List.append_assoc]
  refine ⟨?_, hsub, ?_, ?_⟩ <;>
    (unfold processFlashes
     rw [hlk]
     dsimp only
     rw [if_pos hw])

/-- C4 witness: the amended statement at the concrete three-record batch. -/
theorem c4_store_write_failure_witness :
    (processFlashes [fAlice, fBob, fCarol] "new-flashes" (some respThree)
      failingWriteProcEnv).ledgerAppends =
      [⟨(processFlashes [fAlice, fBob, fCarol] "new-flashes"
          (some respThree) failingWriteProcEnv).candidates,
        "database-write-failure-" ++ "new-flashes" ++ ": " ++
          failingWriteProcEnv.writeErrMsg⟩] ∧
    strHasSubstr ("database-write-failure-" ++ "new-flashes" ++ ": " ++
      failingWriteProcEnv.writeErrMsg) "database-write-failure" = true ∧
    (processFlashes [fAlice, fBob, fCarol] "new-flashes" (some respThree)
      failingWriteProcEnv).publishAttempted = [] ∧
    (processFlashes [fAlice, fBob, fCarol] "new-flashes" (some respThree)
      failingWriteProcEnv).published = [] :=
  c4_store_write_failure [fAlice, fBob, fCarol] "new-flashes"
    (some respThree) failingWriteProcEnv rfl rfl

/-- C5: on a successful-write processing pass, the records handed to the
publisher are exactly the new candidates (those whose id is not already
stored) followed by the known candidates' stored rows whose artifactRef
(`ipfs_cid`) is NULL, empty or blank; consequently any stored row with a
blank `ipfs_cid` whose id is among the tick's candidates is handed to the
publisher again. -/
theorem c5_publish_eligibility (flattened : List Flash) (context : String)
    (orig : Option FlashesResponse) (env : ProcEnv)
    (hlk : env.lookupFailMsg = none) (hw : env.writeOk = true) :
    (processFlashes flattened context orig env).publishAttempted =
      (processFlashes flattened context orig env).candidates.filter
        (fun f => !(env.store.any (fun s => s.flash_id == f.flash_id))) ++
      (getByIds env.store
        ((processFlashes flattened context orig env).candidates.map
          Flash.flash_id)).filter (fun s => blankCid s.ipfs_cid) ∧
    (∀ r ∈ env.store, blankCid r.ipfs_cid = true →
      r.flash_id ∈
        ((processFlashes flattened context orig env).candidates.map
          Flash.flash_id) →
      r ∈ (processFlashes flattened context orig env).publishAttempted) := by
  have hmain : (processFlashes flattened context orig env).publishAttempted =
      (processFlashes flattened context orig env).candidates.filter
        (fun f => !(env.store.any (fun s => s.flash_id == f.flash_id))) ++
      (getByIds env.store
        ((processFlashes flattened context orig env).candidates.map
          Flash.flash_id)).filter (fun s => blankCid s.ipfs_cid) := by
    unfold processFlashes
    rw [hlk, hw]
    dsimp only
    rw [if_neg (by decide : ¬ (true = false))]
    generalize candidatesAfterTruncation flattened orig env.users = P
    by_cases hpub : P.filter (fun f =>
        (writeMany env.store P).any (fun d => d.flash_id == f.flash_id)) ++
      (getByIds env.store (P.map Flash.flash_id)).filter
        (fun f => blankCid f.ipfs_cid) = []
    · rw [if_pos hpub]
      dsimp only
      rw [← newlyWritten_eq]
      exact hpub.symm
    · rw [if_neg hpub]
      dsimp only
      rw [newlyWritten_eq]
  refine ⟨hmain, ?_⟩
  intro r hr hblank hid
  rw [hmain]
  apply List.mem_append_right
  apply List.mem_filter.mpr
  refine ⟨?_, hblank⟩
  unfold getByIds
  apply List.mem_filter.mpr
  exact ⟨hr, by simpa [List.contains] using hid⟩

/-- C5 witness: with `storedBob` stored under a blank cid, processing a
snapshot containing both a new record (`fAlice`) and `fBob` hands the
publisher the new record plus the stored blank-cid row. -/
theorem c5_publish_eligibility_witness :
    (processFlashes [fAlice, fBob] "new-flashes" (some respMixed)
      knownBlankProcEnv).publishAttempted =
      (processFlashes [fAlice, fBob] "new-flashes" (some respMixed)
        knownBlankProcEnv).candidates.filter
        (fun f => !(knownBlankProcEnv.store.any
          (fun s => s.flash_id == f.flash_id))) ++
      (getByIds knownBlankProcEnv.store
        ((processFlashes [fAlice, fBob] "new-flashes" (some respMixed)
          knownBlankProcEnv).candidates.map Flash.flash_id)).filter
        (fun s => blankCid s.ipfs_cid) ∧
    storedBob ∈ (processFlashes [fAlice, fBob] "new-flashes"
      (some respMixed) knownBlankProcEnv).publishAttempted := by
  have h := c5_publish_eligibility [fAlice, fBob] "new-flashes"
    (some respMixed) knownBlankProcEnv rfl rfl
  exact ⟨h.1, h.2 storedBob (by decide) (by decide) (by decide)⟩

/-- C6: every record handed to the publisher is attempted exactly once —
one record's publish failure never prevents the attempt (and success) of its
siblings — and afterwards the failed records, and only they, are ledgered as
one single entry whose reason contains "publish-failure"; with no failures,
nothing is ledgered. -/
theorem c6_publish_failure_isolation (flattened : List Flash)
    (context : String) (orig : Option FlashesResponse) (env : ProcEnv)
    (hlk : env.lookupFailMsg = none) (hw : env.writeOk = true) :
    (processFlashes flattened context orig env).published =
      (processFlashes flattened context orig env).publishAttempted.filter
        (fun f => !(env.publishFails f)) ∧
    (processFlashes flattened context orig env).failedPublishes =
      (processFlashes flattened context orig env).publishAttempted.filter
        env.publishFails ∧
    ((processFlashes flattened context orig env).failedPublishes ≠ [] →
      (processFlashes flattened context orig env).ledgerAppends =
        [⟨(processFlashes flattened context orig env).failedPublishes,
          "rabbitmq-publish-failure-" ++ context⟩] ∧
      strHasSubstr ("rabbitmq-publish-failure-" ++ context)
        "publish-failure" = true) ∧
    ((processFlashes flattened context orig env).failedPublishes = [] →
      (processFlashes flattened context orig env).ledgerAppends = []) := by
  have hsub : strHasSubstr ("rabbitmq-publish-failure-" ++ context)
      "publish-failure" = true := by
    apply strHasSubstr_of_data _ _ "rabbitmq-".data
      ("-".data ++ context.data)
    have hlit : "rabbitmq-publish-failure-".data =
        "rabbitmq-".data ++ ("publish-failure".data ++ "-".data) := by
      decide
    simp [String.data_append, hlit, List.append_assoc]
  unfold processFlashes
  rw [hlk, hw]
  dsimp only
  rw [if_neg (by decide : ¬ (true = false))]
  generalize candidatesAfterTruncation flattened orig env.users = P
  by_cases hpub : P.filter (fun f =>
      (writeMany env.store P).any (fun d => d.flash_id == f.flash_id)) ++
    (getByIds env.store (P.map Flash.flash_id)).filter
      (fun f => blankCid f.ipfs_cid) = []
  · rw [if_pos hpub]
    refine ⟨rfl, rfl, ?_, fun _ => rfl⟩
    intro hne
    exact absurd rfl hne
  · rw [if_neg hpub]
    rw [publishRun_eq]
    dsimp only
    refine ⟨rfl, rfl, ?_, ?_⟩
    · intro hne
      rw [if_neg hne]
      exact ⟨rfl, hsub⟩
    · intro hemp
      rw [if_pos hemp]

/-- C6 witness: publishing five records where only flash 3 throws publishes
the other four and ledgers exactly flash 3 in one publish-failure entry. -/
theorem c6_publish_failure_isolation_witness :
    (processFlashes [fAlice, fBob, fCarol, fDave, fEve] "new-flashes"
      (some respFive) failThirdProcEnv).published =
      (processFlashes [fAlice, fBob, fCarol, fDave, fEve] "new-flashes"
        (some respFive) failThirdProcEnv).publishAttempted.filter
        (fun f => !(failThirdProcEnv.publishFails f)) ∧
    (processFlashes [fAlice, fBob, fCarol, fDave, fEve] "new-flashes"
      (some respFive) failThirdProcEnv).failedPublishes =
      (processFlashes [fAlice, fBob, fCarol, fDave, fEve] "new-flashes"
        (some respFive) failThirdProcEnv).publishAttempted.filter
        failThirdProcEnv.publishFails ∧
    (processFlashes [fAlice, fBob, fCarol, fDave, fEve] "new-flashes"
      (some respFive) failThirdProcEnv).ledgerAppends =
      [⟨(processFlashes [fAlice, fBob, fCarol, fDave, fEve] "new-flashes"
          (some respFive) failThirdProcEnv).failedPublishes,
        "rabbitmq-publish-failure-" ++ "new-flashes"⟩] ∧
    strHasSubstr ("rabbitmq-publish-failure-" ++ "new-flashes")
      "publish-failure" = true ∧
    (processFlashes [fAlice, fBob, fCarol, fDave, fEve] "new-flashes"
      (some respFive) failThirdProcEnv).failedPublishes = [fCarol] ∧
    (processFlashes [fAlice, fBob, fCarol, fDave, fEve] "new-flashes"
      (some respFive) failThirdProcEnv).published =
      [fAlice, fBob, fDave, fEve] := by
  have h := c6_publish_failure_isolation [fAlice, fBob, fCarol, fDave, fEve]
    "new-flashes" (some respFive) failThirdProcEnv rfl rfl
  have h3 := h.2.2.1 (by decide)
  exact ⟨h.1, h.2.1, h3.1, h3.2, by decide, by decide⟩

/-- C8 counterexample: the scheduler counters are `static`, so two distinct
instances interfere — after instance A's processing tick, instance B running
the very same tick inputs is skipped (unchanged fingerprint), whereas B run
in isolation from the same initial state processes. -/
theorem c8_counterexample :
    cronA ≠ cronB ∧
    ((runShared initialSchedState
      [(cronA, freshTickEnv), (cronB, freshTickEnv)]).2.map
        TickResult.outcome) =
      [TickOutcome.processed, TickOutcome.skippedUnchanged] ∧
    (cronB.task initialSchedState freshTickEnv).outcome =
      TickOutcome.processed := by
  decide

/-- C8 (amended): the scheduler state is class-static shared state, not a
per-instance value — `task` ignores the instance entirely, so any two
instances given the same shared state and tick inputs produce the identical
result (and a tick run through one instance updates the single state the
other observes next). -/
theorem c8_static_shared_state (i j : StoreFlashesCron) (st : SchedState)
    (env : TickEnv) :
    i.task st env = j.task st env := rfl

end InvadersProducer
